import Mathlib

/-!
Verification of the Mojo V3 LiteX SoC composition script
(`mojov3.py`).  The script composes a SoC description from a static
pin catalog (`_io`), a platform wrapper, a clock/reset generator
(`_CRG`) and a `BaseSoC` that wires an SDR SDRAM subsystem, a DNA
identification peripheral and an LED chaser into the address map.

The composition calls into the LiteX/migen libraries, whose sources are
not part of this repository; where a library behaviour decides a claim
it is modelled from the specification and marked `Modelled from the
spec:` in its doc comment.  Everything else is translated directly from
the call sites in `mojov3.py`.
-/

/-- A physical resource of the pin catalog: logical name, index and the
pin identifiers of its (sub)signals, in source order. -/
structure Resource where
  name : String
  index : Nat
  pins : List String
deriving Repr, DecidableEq

/-- The `_io` pin catalog of `mojov3.py`, in source order.  Subsignal
pins are flattened in source order; electrical-standard and slew
attributes carry no composition content and are omitted. -/
def _io : List Resource := [
  ⟨"clk50", 0, ["P56"]⟩,
  ⟨"cpu_reset", 0, ["P38"]⟩,
  ⟨"user_led", 0, ["P134"]⟩,
  ⟨"user_led", 1, ["P133"]⟩,
  ⟨"user_led", 2, ["P132"]⟩,
  ⟨"user_led", 3, ["P131"]⟩,
  ⟨"user_led", 4, ["P127"]⟩,
  ⟨"user_led", 5, ["P126"]⟩,
  ⟨"user_led", 6, ["P124"]⟩,
  ⟨"user_led", 7, ["P123"]⟩,
  ⟨"serial", 0, ["P50", "P51"]⟩,
  ⟨"tx_busy", 0, ["P39"]⟩,
  ⟨"cclk", 0, ["P70"]⟩,
  ⟨"sdram_clock", 0, ["P29"]⟩,
  ⟨"sdram", 0, ["P101", "P102", "P104", "P105", "P5", "P6", "P7", "P8",
                "P9", "P10", "P88", "P27", "P26",
                "P75", "P78", "P79", "P80", "P34", "P35", "P40", "P41",
                "P85", "P87", "P74", "P83", "P82", "P81", "P84", "P30"]⟩]

/-- Composition-time errors (spec section 7 taxonomy; only the kinds
reachable from this script's call sites are modelled). -/
inductive CompErr where
  | resourceNotFound
  | resourceAlreadyBound
  | unsupportedRatio
deriving Repr, DecidableEq

/-- Platform state: the set of already-bound (requested) resources,
most recent first. -/
structure Platform where
  bound : List (String × Nat)
deriving Repr, DecidableEq

/-- The fresh platform constructed by `Platform()`. -/
def Platform.init : Platform := ⟨[]⟩

/-- Catalog lookup by name and index. -/
def lookupResource (name : String) (index : Nat) : Option Resource :=
  _io.find? (fun r => r.name == name && r.index == index)

/-- Modelled from the spec: `Platform.request` (LiteX, not in this
repository).  Spec section 4.1: fails with `ResourceNotFoundError` if
name/index unknown; fails with `ResourceAlreadyBoundError` unless
`loose=true` or the resource has not yet been bound; marks the
resource as bound. -/
def Platform.request (p : Platform) (name : String) (index : Nat)
    (loose : Bool) : Except CompErr (Resource × Platform) :=
  match lookupResource name index with
  | none => .error .resourceNotFound
  | some r =>
    if loose = false ∧ (name, index) ∈ p.bound then .error .resourceAlreadyBound
    else .ok (r, ⟨(name, index) :: p.bound⟩)

/-- Request a list of resources in order, each individually
bind-checked (helper for `request_all`). -/
def requestListAux (p : Platform) :
    List Resource → Except CompErr (List Resource × Platform)
  | [] => .ok ([], p)
  | r :: rest => do
    let (x, p1) ← Platform.request p r.name r.index false
    let (xs, p2) ← requestListAux p1 rest
    .ok (x :: xs, p2)

/-- Modelled from the spec: `Platform.request_all` (LiteX, not in this
repository).  Spec section 4.1: returns every index registered under
the name, each individually bind-checked. -/
def Platform.request_all (p : Platform) (name : String) :
    Except CompErr (List Resource × Platform) :=
  requestListAux p (_io.filter (fun r => r.name == name))

/-- The default clock period constraint emitted at finalization:
1e9/50e6 nanoseconds (`Platform.default_clk_period`). -/
def default_clk_period : Nat := 1000000000 / 50000000

/-- `Platform.do_finalize`: emits one period constraint for the
default clock, obtained through `lookup_request("clk50", loose=True)`. -/
def Platform.do_finalize (p : Platform) :
    Except CompErr (List (Resource × Nat) × Platform) :=
  match Platform.request p "clk50" 0 true with
  | .error e => .error e
  | .ok (r, q) => .ok ([(r, default_clk_period)], q)

/-- Modelled from the spec: the S6PLL's supported ratio table (the PLL
core is an opaque IP block, not in this repository).  A target
frequency is achievable from the registered input clock iff some
integer multiplier/divider pair within the table's bounded ranges hits
the target within the PLL's relative frequency tolerance of 1%.  (The
spec's own end-to-end cases require 66,666,666 Hz to be achievable
from the 50 MHz input while 999 Hz is not; an exact-ratio table would
reject both, so the multiplier table is modelled with its tolerance.) -/
def s6pll_achievable (clkin freq : Nat) : Bool :=
  (List.range 64).any fun m =>
    (List.range 128).any fun d =>
      100 * Nat.dist (clkin * (m + 1)) (freq * (d + 1)) ≤ freq * (d + 1)

/-- A PLL output: target clock-domain name, nominal frequency, phase
offset in degrees (`pll.create_clkout`). -/
structure Clkout where
  domain : String
  freq : Nat
  phase : Nat
deriving Repr, DecidableEq

/-- `pll.create_clkout(cd, freq, phase)`: fails with
`UnsupportedRatioError` when the requested frequency is not achievable
from the registered input clock. -/
def create_clkout (clkin : Nat) (domain : String) (freq : Nat)
    (phase : Nat) : Except CompErr Clkout :=
  if s6pll_achievable clkin freq then .ok ⟨domain, freq, phase⟩
  else .error .unsupportedRatio

/-- A clock-domain declaration (`ClockDomain(...)`): name and whether
it was created reset-less. -/
structure ClockDomainDecl where
  name : String
  reset_less : Bool
deriving Repr, DecidableEq

/-- A DDR output primitive instantiation: the pad's resource name and
the clock-domain whose clock drives it (`DDROutput(1, 0, pad,
ClockSignal("sys_ps"))`). -/
structure DDROutputDecl where
  pad : String
  domain : String
deriving Repr, DecidableEq

/-- The clock/reset generator produced by `_CRG.__init__`: declared
clock domains, PLL outputs, and DDR output specials. -/
structure CRG where
  domains : List ClockDomainDecl
  clkouts : List Clkout
  ddrOutputs : List DDROutputDecl
deriving Repr, DecidableEq

/-- The PLL reset expression of `_CRG.__init__` line 93:
`pll.reset.eq(~platform.request("cpu_reset") | ~platform.request("cclk"))`. -/
def pll_reset (cpu_reset cclk : Bool) : Bool := (!cpu_reset) || (!cclk)

/-- `_CRG.__init__`: declares `cd_sys` and the reset-less `cd_sys_ps`,
requests `cpu_reset` and `cclk` for the PLL reset, registers `clk50`
at 50 MHz as PLL input, creates the two PLL outputs (the second at the
same frequency with `phase=90`), and drives the `sdram_clock` pad from
the `sys_ps` clock through a DDR output. -/
def mkCRG (p : Platform) (sys_clk_freq : Nat) :
    Except CompErr (CRG × Platform) := do
  let (_, p1) ← Platform.request p "cpu_reset" 0 false
  let (_, p2) ← Platform.request p1 "cclk" 0 false
  let (_, p3) ← Platform.request p2 "clk50" 0 false
  let a ← create_clkout 50000000 "sys" sys_clk_freq 0
  let b ← create_clkout 50000000 "sys_ps" sys_clk_freq 90
  let (sdram_clock_r, p4) ← Platform.request p3 "sdram_clock" 0 false
  .ok ({ domains := [⟨"sys", false⟩, ⟨"sys_ps", true⟩],
         clkouts := [a, b],
         ddrOutputs := [⟨sdram_clock_r.name, "sys_ps"⟩] }, p4)

/-- The SDRAM subsystem configuration recorded from the
`GENSDRPHY(...)`/`self.add_sdram(...)` call site.  The field
`clock_domain` is modelled from the spec: the call site passes no
clock-domain handle to the PHY/controller/cache, so they are
instantiated in the framework's default system domain `sys`; the
phase-shifted domain appears only in the CRG's DDR output driving the
`sdram_clock` pad. -/
structure SdramConfig where
  pads : Resource
  clock_domain : String
  module_name : String
  rate : String
  origin : Nat
  size : Nat
  l2_cache_size : Nat
  l2_cache_min_data_width : Nat
  l2_cache_reverse : Bool
deriving Repr, DecidableEq

/-- Cache address ordering (spec section 3, `CacheParams`). -/
inductive AddressOrder where
  | normal
  | reversed
deriving Repr, DecidableEq

/-- Cache geometry (spec section 3, `CacheParams`). -/
structure CacheParams where
  line_count : Nat
  min_data_width_bits : Nat
  address_order : AddressOrder
deriving Repr, DecidableEq

/-- Modelled from the spec: the cache layer itself lives in the
external LiteX library; the spec (sections 3 and 4.4 step 3) reads the
`add_sdram` cache arguments `l2_cache_size`, `l2_cache_min_data_width`
and `l2_cache_reverse` as the composed cache geometry: line count,
minimum transaction width, and reversed/normal address order. -/
def cacheGeometry (c : SdramConfig) : CacheParams :=
  ⟨c.l2_cache_size, c.l2_cache_min_data_width,
   if c.l2_cache_reverse then AddressOrder.reversed else AddressOrder.normal⟩

/-- A registered address-map region: half-open range
`[base, base+size)`. -/
structure MemoryRegion where
  base : Nat
  size : Nat
deriving Repr, DecidableEq

/-- Modelled from the spec: the SoC's fixed memory map entry
`mem_map["main_ram"]` is set by the surrounding LiteX `SoCCore`, not by
this repository; only its role as the main-RAM origin matters to the
claims. -/
def mem_map_main_ram : Nat := 0x40000000

/-- Modelled from the spec: base of the peripheral register-block
(CSR) window allocated by the surrounding `SoCCore`. -/
def csr_base : Nat := 0x82000000

/-- Modelled from the spec: size of one peripheral register block. -/
def csr_block_size : Nat := 0x800

/-- Modelled from the spec (section 4.4 step 4): each `add_csr` call
allocates the next register block; block `i` occupies
`[csr_base + i*csr_block_size, csr_base + (i+1)*csr_block_size)`. -/
def csrBlocks (csrs : List String) : List MemoryRegion :=
  (List.range csrs.length).map (fun i => ⟨csr_base + i * csr_block_size, csr_block_size⟩)

/-- The composed SoC graph: final platform binding state, clock/reset
graph, optional SDRAM subsystem, registered memory regions, register
blocks (in allocation order), LED pads and the identification
peripheral. -/
structure SoCGraph where
  ident : String
  platform : Platform
  crg : CRG
  sdram : Option SdramConfig
  regions : List MemoryRegion
  csrs : List String
  leds_pads : List Resource
  has_dna : Bool
deriving Repr, DecidableEq

/-- The global address map of a composed graph: the registered memory
regions followed by the peripheral register blocks. -/
def addressMap (g : SoCGraph) : List MemoryRegion :=
  g.regions ++ csrBlocks g.csrs

/-- Build options recognized by `BaseSoC.__init__`: the system clock
frequency (default 66,666,666) and the integrated-main-RAM size the
surrounding `SoCCore` was configured with (default 0, i.e. no
pre-integrated main RAM). -/
structure BuildOptions where
  sys_clk_freq : Nat
  integrated_main_ram_size : Nat
deriving Repr, DecidableEq

/-- The default options of `BaseSoC()`. -/
def defaultOptions : BuildOptions := ⟨66666666, 0⟩

/-- `BaseSoC.__init__`: constructs the platform, the CRG, then (when
no main RAM is pre-integrated) the GENSDRPHY on the requested `sdram`
resource and `add_sdram` with `MT48LC32M8(sys_clk_freq, "1:1")`,
origin `mem_map["main_ram"]`, size `0x2000000` and the fixed L2 cache
arguments; then the DNA peripheral with its register block and the
LED chaser over all `user_led` resources with its register block. -/
def buildSoC (opts : BuildOptions) : Except CompErr SoCGraph := do
  let p0 := Platform.init
  let (crg, p1) ← mkCRG p0 opts.sys_clk_freq
  let (sdramCfg, regions, p2) ←
    (if opts.integrated_main_ram_size == 0 then do
      let (sdram_r, pa) ← Platform.request p1 "sdram" 0 false
      let cfg : SdramConfig :=
        { pads := sdram_r,
          clock_domain := "sys",
          module_name := "MT48LC32M8",
          rate := "1:1",
          origin := mem_map_main_ram,
          size := 0x2000000,
          l2_cache_size := 1024,
          l2_cache_min_data_width := 128,
          l2_cache_reverse := true }
      Except.ok (some cfg, [MemoryRegion.mk mem_map_main_ram 0x2000000], pa)
    else Except.ok (none, [], p1))
  let csrs1 := ["dna"]
  let (ledPads, p3) ← Platform.request_all p2 "user_led"
  let csrs2 := csrs1 ++ ["leds"]
  .ok { ident := "Mojo V3 SoC",
        platform := p3,
        crg := crg,
        sdram := sdramCfg,
        regions := regions,
        csrs := csrs2,
        leds_pads := ledPads,
        has_dna := true }

/-- The resources requested by the default build (with the SDRAM
subsystem), most recent first, as recorded in the platform state. -/
def boundWithSdram : List (String × Nat) :=
  [("user_led", 7), ("user_led", 6), ("user_led", 5), ("user_led", 4),
   ("user_led", 3), ("user_led", 2), ("user_led", 1), ("user_led", 0),
   ("sdram", 0), ("sdram_clock", 0), ("clk50", 0), ("cclk", 0), ("cpu_reset", 0)]

/-- The eight `user_led` resources, in catalog order. -/
def userLeds : List Resource :=
  [⟨"user_led", 0, ["P134"]⟩, ⟨"user_led", 1, ["P133"]⟩,
   ⟨"user_led", 2, ["P132"]⟩, ⟨"user_led", 3, ["P131"]⟩,
   ⟨"user_led", 4, ["P127"]⟩, ⟨"user_led", 5, ["P126"]⟩,
   ⟨"user_led", 6, ["P124"]⟩, ⟨"user_led", 7, ["P123"]⟩]

/-- The `sdram` resource of the catalog. -/
def sdramRes : Resource :=
  ⟨"sdram", 0, ["P101", "P102", "P104", "P105", "P5", "P6", "P7", "P8",
               "P9", "P10", "P88", "P27", "P26",
               "P75", "P78", "P79", "P80", "P34", "P35", "P40", "P41",
               "P85", "P87", "P74", "P83", "P82", "P81", "P84", "P30"]⟩

/-- The `clk50` resource of the catalog. -/
def clk50Res : Resource := ⟨"clk50", 0, ["P56"]⟩

/-- The CRG value produced for an achievable system clock frequency. -/
def crgAt (f : Nat) : CRG :=
  { domains := [⟨"sys", false⟩, ⟨"sys_ps", true⟩],
    clkouts := [⟨"sys", f, 0⟩, ⟨"sys_ps", f, 90⟩],
    ddrOutputs := [⟨"sdram_clock", "sys_ps"⟩] }

/-- The graph `buildSoC` produces at an achievable frequency `f` when
no main RAM is pre-integrated. -/
def graphWithSdram (f : Nat) : SoCGraph :=
  { ident := "Mojo V3 SoC",
    platform := ⟨boundWithSdram⟩,
    crg := crgAt f,
    sdram := some { pads := sdramRes,
                    clock_domain := "sys",
                    module_name := "MT48LC32M8",
                    rate := "1:1",
                    origin := mem_map_main_ram,
                    size := 0x2000000,
                    l2_cache_size := 1024,
                    l2_cache_min_data_width := 128,
                    l2_cache_reverse := true },
    regions := [⟨mem_map_main_ram, 0x2000000⟩],
    csrs := ["dna", "leds"],
    leds_pads := userLeds,
    has_dna := true }

/-- The graph `buildSoC` produces at an achievable frequency `f` when
main RAM is pre-integrated (so the SDRAM subsystem is skipped). -/
def graphNoSdram (f : Nat) : SoCGraph :=
  { ident := "Mojo V3 SoC",
    platform := ⟨[("user_led", 7), ("user_led", 6), ("user_led", 5), ("user_led", 4),
                  ("user_led", 3), ("user_led", 2), ("user_led", 1), ("user_led", 0),
                  ("sdram_clock", 0), ("clk50", 0), ("cclk", 0), ("cpu_reset", 0)]⟩,
    crg := crgAt f,
    sdram := none,
    regions := [],
    csrs := ["dna", "leds"],
    leds_pads := userLeds,
    has_dna := true }

/-- The graph of the default build. -/
def defaultGraph : SoCGraph := graphWithSdram 66666666

/-- Characterization of `buildSoC`: the composition succeeds exactly
when the requested system frequency is achievable by the PLL, and the
resulting graph depends on the options only through the frequency and
the presence of pre-integrated main RAM. -/
theorem buildSoC_eq (opts : BuildOptions) :
    buildSoC opts =
      (if s6pll_achievable 50000000 opts.sys_clk_freq then
        Except.ok (if opts.integrated_main_ram_size == 0 then
                     graphWithSdram opts.sys_clk_freq
                   else graphNoSdram opts.sys_clk_freq)
      else Except.error CompErr.unsupportedRatio) := by
  unfold buildSoC mkCRG create_clkout
  generalize s6pll_achievable 50000000 opts.sys_clk_freq = a
  generalize (opts.integrated_main_ram_size == 0) = b
  cases a <;> cases b <;> rfl

/-- Two half-open ranges `[base, base+size)` intersect. -/
def regionsOverlap (a b : MemoryRegion) : Bool :=
  decide (a.base < b.base + b.size ∧ b.base < a.base + a.size)

/-- Pairwise non-overlap of a list of address-map entries. -/
def pairwiseNonOverlapping : List MemoryRegion → Bool
  | [] => true
  | r :: rs => rs.all (fun s => !regionsOverlap r s) && pairwiseNonOverlapping rs

/-- Claim C1: the default build (sys_clk_freq 66,666,666 Hz, no
pre-integrated main RAM) succeeds, and the resulting graph contains
exactly one memory region of size 0x2000000 at the memory map's
main_ram origin, exactly one 90-degree phase-shifted derived clock
domain, a DNA identification peripheral, and an LED peripheral bound
to all 8 user_led resources, the two peripherals holding distinct
register blocks. -/
theorem default_build_shape :
    buildSoC defaultOptions = Except.ok defaultGraph ∧
    defaultGraph.regions = [⟨mem_map_main_ram, 0x2000000⟩] ∧
    defaultGraph.crg.clkouts.filter (fun k => k.phase != 0) =
      [⟨"sys_ps", 66666666, 90⟩] ∧
    defaultGraph.crg.domains.filter (fun d => d.name == "sys_ps") =
      [⟨"sys_ps", true⟩] ∧
    defaultGraph.has_dna = true ∧
    defaultGraph.leds_pads.map (fun r => (r.name, r.index)) =
      [("user_led", 0), ("user_led", 1), ("user_led", 2), ("user_led", 3),
       ("user_led", 4), ("user_led", 5), ("user_led", 6), ("user_led", 7)] ∧
    defaultGraph.csrs = ["dna", "leds"] ∧
    csrBlocks defaultGraph.csrs =
      [⟨csr_base, csr_block_size⟩, ⟨csr_base + csr_block_size, csr_block_size⟩] := by
  refine ⟨?_, rfl, rfl, rfl, rfl, rfl, rfl, rfl⟩
  rw [buildSoC_eq]
  rfl

/-- Claim C2: for every set of build options, when the build succeeds
the global address map (the registered memory region together with
every peripheral register block) contains no two entries whose
half-open ranges intersect. -/
theorem address_map_non_overlapping (opts : BuildOptions) (g : SoCGraph)
    (h : buildSoC opts = Except.ok g) :
    pairwiseNonOverlapping (addressMap g) = true := by
  rw [buildSoC_eq] at h
  split at h
  · rw [Except.ok.injEq] at h
    subst h
    split
    · rfl
    · rfl
  · exact absurd h (by simp)

/-- Witness for claim C2 at the default options. -/
theorem address_map_non_overlapping_witness :
    pairwiseNonOverlapping (addressMap defaultGraph) = true :=
  address_map_non_overlapping defaultOptions defaultGraph (by rw [buildSoC_eq]; rfl)

/-- Claim C3: the composed PLL reset equals the OR of the inverted
ready inputs, i.e. for every combination of input states it is
asserted iff at least one of `cpu_reset`, `cclk` is deasserted:
`pll_reset a b = !(a && b)`. -/
theorem pll_reset_truth_table :
    ∀ a b : Bool, pll_reset a b = !(a && b) := by decide

/-- Claim C7: when no supported multiplier ratio reaches the requested
system clock frequency, the composition fails with the
unsupported-ratio error and produces no SoC graph. -/
theorem unsupported_ratio_build_fails (opts : BuildOptions)
    (h : s6pll_achievable 50000000 opts.sys_clk_freq = false) :
    buildSoC opts = Except.error CompErr.unsupportedRatio := by
  rw [buildSoC_eq, h]
  rfl

/-- Witness for claim C7: `sys_clk_freq = 999` is unachievable and the
build fails without a graph. -/
theorem unsupported_ratio_build_fails_witness :
    buildSoC ⟨999, 0⟩ = Except.error CompErr.unsupportedRatio :=
  unsupported_ratio_build_fails ⟨999, 0⟩ (by decide)

/-- Claim C4: whenever the memory subsystem is composed (no
pre-integrated main RAM), the cache layer is configured with the fixed
default geometry: 1024 lines (a power of two), a minimum transaction
width of at least 128 bits, and reversed address ordering. -/
theorem cache_default_geometry (opts : BuildOptions) (g : SoCGraph)
    (h : buildSoC opts = Except.ok g)
    (hram : opts.integrated_main_ram_size = 0) :
    ∃ c, g.sdram = some c ∧
      (cacheGeometry c).line_count = 1024 ∧
      (∃ k, (cacheGeometry c).line_count = 2 ^ k) ∧
      128 ≤ (cacheGeometry c).min_data_width_bits ∧
      (cacheGeometry c).address_order = AddressOrder.reversed := by
  rw [buildSoC_eq] at h
  split at h
  · rw [Except.ok.injEq] at h
    subst h
    rw [hram]
    exact ⟨_, rfl, rfl, ⟨10, rfl⟩, by decide, rfl⟩
  · exact absurd h (by simp)

/-- Witness for claim C4 at the default options. -/
theorem cache_default_geometry_witness :
    ∃ c, defaultGraph.sdram = some c ∧
      (cacheGeometry c).line_count = 1024 ∧
      (∃ k, (cacheGeometry c).line_count = 2 ^ k) ∧
      128 ≤ (cacheGeometry c).min_data_width_bits ∧
      (cacheGeometry c).address_order = AddressOrder.reversed :=
  cache_default_geometry defaultOptions defaultGraph (by rw [buildSoC_eq]; rfl) rfl

/-- Claim C5, counterexample: in the default build the memory
subsystem (PHY/controller/cache) is not composed with the
phase-shifted domain as its clock-domain handle — the recorded clock
domain of the SDRAM composition is `sys`, not `sys_ps`. -/
theorem sdram_not_clocked_by_sys_ps :
    ¬ (defaultGraph.sdram.map (fun c => c.clock_domain) = some "sys_ps") := by
  decide

/-- Claim C5 as amended: the phase-shifted (90°) domain is used to
drive the external memory clock output — the `sdram_clock` pad through
the CRG's DDR output — while the PHY/controller/cache composition
itself receives no clock-domain handle and is instantiated in the
default system domain `sys`. -/
theorem sys_ps_drives_memory_clock_output (opts : BuildOptions) (g : SoCGraph)
    (h : buildSoC opts = Except.ok g) :
    g.crg.ddrOutputs = [⟨"sdram_clock", "sys_ps"⟩] ∧
    (∀ c, g.sdram = some c → c.clock_domain = "sys") := by
  rw [buildSoC_eq] at h
  split at h
  · rw [Except.ok.injEq] at h
    subst h
    split
    · exact ⟨rfl, fun c hc => by rw [← Option.some.inj hc]⟩
    · exact ⟨rfl, fun c hc => by exact absurd hc (by simp [graphNoSdram])⟩
  · exact absurd h (by simp)

/-- Witness for the amended claim C5 at the default options. -/
theorem sys_ps_drives_memory_clock_output_witness :
    defaultGraph.crg.ddrOutputs = [⟨"sdram_clock", "sys_ps"⟩] ∧
    (∀ c, defaultGraph.sdram = some c → c.clock_domain = "sys") :=
  sys_ps_drives_memory_clock_output defaultOptions defaultGraph
    (by rw [buildSoC_eq]; rfl)

/-- Claim C6: for every successful build, the CRG declares the
phase-shifted memory clock as its own reset-less clock domain
(`sys_ps`), distinct from the system domain, with its own PLL output
at the same nominal frequency as the system clock and a 90-degree
phase offset — not as a delay derived on the system domain. -/
theorem sys_ps_first_class_domain (opts : BuildOptions) (g : SoCGraph)
    (h : buildSoC opts = Except.ok g) :
    g.crg.domains = [⟨"sys", false⟩, ⟨"sys_ps", true⟩] ∧
    g.crg.clkouts = [⟨"sys", opts.sys_clk_freq, 0⟩,
                     ⟨"sys_ps", opts.sys_clk_freq, 90⟩] ∧
    "sys_ps" ≠ "sys" := by
  rw [buildSoC_eq] at h
  split at h
  · rw [Except.ok.injEq] at h
    subst h
    split
    · exact ⟨rfl, rfl, by decide⟩
    · exact ⟨rfl, rfl, by decide⟩
  · exact absurd h (by simp)

/-- Witness for claim C6 at the default options. -/
theorem sys_ps_first_class_domain_witness :
    defaultGraph.crg.domains = [⟨"sys", false⟩, ⟨"sys_ps", true⟩] ∧
    defaultGraph.crg.clkouts = [⟨"sys", defaultOptions.sys_clk_freq, 0⟩,
                                ⟨"sys_ps", defaultOptions.sys_clk_freq, 90⟩] ∧
    "sys_ps" ≠ "sys" :=
  sys_ps_first_class_domain defaultOptions defaultGraph (by rw [buildSoC_eq]; rfl)

/-- Claim C8: for every platform state, resource name and index, a
successful (strict) request followed by a second request of the same
resource fails with the already-bound error when `loose` is false, and
succeeds returning the same binding when `loose` is true. -/
theorem request_twice (p : Platform) (name : String) (idx : Nat)
    (r : Resource) (q : Platform)
    (h : Platform.request p name idx false = Except.ok (r, q)) :
    Platform.request q name idx false = Except.error CompErr.resourceAlreadyBound ∧
    ∃ q2, Platform.request q name idx true = Except.ok (r, q2) := by
  unfold Platform.request at h ⊢
  cases hL : lookupResource name idx with
  | none =>
    simp only [hL] at h
    exact Except.noConfusion h
  | some r0 =>
    simp only [hL] at h ⊢
    split at h
    · exact absurd h (by simp)
    · rw [Except.ok.injEq, Prod.mk.injEq] at h
      obtain ⟨h1, h2⟩ := h
      subst h1
      subst h2
      constructor
      · simp [List.mem_cons]
      · exact ⟨⟨(name, idx) :: (name, idx) :: p.bound⟩, by simp⟩

/-- Witness for claim C8: requesting `clk50` twice on a fresh
platform. -/
theorem request_twice_witness :
    Platform.request ⟨[("clk50", 0)]⟩ "clk50" 0 false =
      Except.error CompErr.resourceAlreadyBound ∧
    ∃ q2, Platform.request ⟨[("clk50", 0)]⟩ "clk50" 0 true =
      Except.ok (clk50Res, q2) :=
  request_twice Platform.init "clk50" 0 clk50Res ⟨[("clk50", 0)]⟩ rfl

/-- Claim C9: finalization emits exactly one physical timing
constraint, for the default clock `clk50`, with period
`1e9/50e6 = 20` ns — independently of the platform state and of how
many derived clock domains reference the clock (the CRG is not even
an input of `do_finalize`). -/
theorem finalize_one_constraint (p : Platform) :
    default_clk_period = 20 ∧
    ∃ q, Platform.do_finalize p =
      Except.ok ([(clk50Res, default_clk_period)], q) :=
  ⟨rfl, ⟨⟨("clk50", 0) :: p.bound⟩, rfl⟩⟩

/-- The SoC constructed at module import by the top-level statement
`soc = BaseSoC()` (line 146), with the default options; it is
evaluated when the module loads, before and independently of
`main()`. -/
def moduleLoadSoC : Except CompErr SoCGraph := buildSoC defaultOptions

/-- The SoC constructed inside `main()` from the parsed arguments
(lines 159–164) — a second, independent composition. -/
def mainBuild (sys_clk_freq integrated_main_ram_size : Nat) :
    Except CompErr SoCGraph :=
  buildSoC ⟨sys_clk_freq, integrated_main_ram_size⟩

/-- Claim C10: loading the module constructs a complete SoC graph with
the default options, with every resource the SoC requests bound in the
platform; `main()` then constructs a second SoC from its arguments,
whose default-argument result is an equal, independently built
graph. -/
theorem module_load_builds_soc :
    moduleLoadSoC = Except.ok defaultGraph ∧
    defaultGraph.platform.bound = boundWithSdram ∧
    mainBuild 66666666 0 = Except.ok defaultGraph := by
  refine ⟨?_, rfl, ?_⟩
  · unfold moduleLoadSoC
    rw [buildSoC_eq]
    rfl
  · unfold mainBuild
    rw [buildSoC_eq]
    rfl
